import Mathlib

/-!
Verification development for an MCP adapter over the n8n REST API
(src/index.ts). The TypeScript handlers are shallowly embedded as pure
Lean functions: each handler maps its arguments and the upstream
response(s) it received to the list of upstream calls it issues and the
normalized payload it returns. JavaScript truthiness on optional string
fields (`if (x)`) is modelled explicitly: an optional string is truthy
exactly when it is present and non-empty.
-/

namespace N8nMcp

/-- A JSON-like value, used for the opaque payloads this layer passes
through without interpreting (workflow nodes, connections, settings,
static data, trigger data, upstream error bodies). -/
inductive Json where
  | null : Json
  | bool (b : Bool) : Json
  | num (n : Int) : Json
  | str (s : String) : Json
  | arr (elems : List Json) : Json
  | obj (fields : List (String × Json)) : Json

/-- JavaScript truthiness of a JSON value: null, false, 0 and the empty
string are falsy; arrays and objects are always truthy. -/
def Json.truthy : Json → Bool
  | .null => false
  | .bool b => b
  | .num n => n != 0
  | .str s => s != ""
  | .arr _ => true
  | .obj _ => true

/-- Escape a character for inclusion in a JSON string literal. -/
def jsonEscapeChar (c : Char) : String :=
  if c = '"' then "\\\"" else if c = '\\' then "\\\\" else String.singleton c

/-- Escape a string for inclusion in a JSON string literal. -/
def jsonEscape (s : String) : String :=
  s.data.foldl (fun acc c => acc ++ jsonEscapeChar c) ""

mutual

/-- JSON.stringify, as applied to upstream response bodies by the error
translator. -/
def Json.stringify : Json → String
  | .null => "null"
  | .bool b => if b then "true" else "false"
  | .num n => toString n
  | .str s => "\"" ++ jsonEscape s ++ "\""
  | .arr xs => "[" ++ Json.stringifyArray xs ++ "]"
  | .obj fs => "\x7b" ++ Json.stringifyFields fs ++ "\x7d"

/-- Comma-separated serialization of a JSON array body. -/
def Json.stringifyArray : List Json → String
  | [] => ""
  | [x] => Json.stringify x
  | x :: xs => Json.stringify x ++ "," ++ Json.stringifyArray xs

/-- Comma-separated serialization of a JSON object body. -/
def Json.stringifyFields : List (String × Json) → String
  | [] => ""
  | [(k, v)] => "\"" ++ jsonEscape k ++ "\":" ++ Json.stringify v
  | (k, v) :: fs =>
      "\"" ++ jsonEscape k ++ "\":" ++ Json.stringify v ++ "," ++ Json.stringifyFields fs

end

/-- JavaScript truthiness of an optional string field: present and
non-empty. -/
def truthyStr (o : Option String) : Bool :=
  match o with
  | some s => s != ""
  | none => false

/-- A workflow tag, as in the `tags` array of the upstream workflow
shape (interface N8nWorkflow). -/
structure Tag where
  id : String
  name : String
deriving DecidableEq, Repr

/-- Upstream workflow summary shape (interface N8nWorkflow in
src/index.ts). -/
structure N8nWorkflow where
  id : String
  name : String
  active : Bool
  createdAt : Option String := none
  updatedAt : Option String := none
  tags : Option (List Tag) := none
deriving DecidableEq, Repr

/-- The nested error record inside an execution's result data
(`data.resultData.error` in interface N8nExecution). -/
structure ResultError where
  message : String
  stack : Option String := none
deriving DecidableEq, Repr

/-- The `resultData` record of an execution (interface N8nExecution). -/
structure ResultData where
  error : Option ResultError := none
deriving DecidableEq, Repr

/-- The `data` record of an execution (interface N8nExecution). -/
structure ExecData where
  resultData : Option ResultData := none
deriving DecidableEq, Repr

/-- Upstream execution shape (interface N8nExecution in src/index.ts). -/
structure N8nExecution where
  id : String
  finished : Bool
  mode : String
  retryOf : Option String := none
  retrySuccessId : Option String := none
  startedAt : String
  stoppedAt : Option String := none
  workflowId : String
  waitTill : Option String := none
  status : Option String := none
  data : Option ExecData := none
deriving DecidableEq, Repr

/-- Upstream workflow detail shape (interface N8nWorkflowDetail):
summary fields plus opaque nodes, connections, settings, staticData. -/
structure N8nWorkflowDetail extends N8nWorkflow where
  nodes : List Json
  connections : List (String × Json)
  settings : Option (List (String × Json)) := none
  staticData : Option (List (String × Json)) := none

/-- determineExecutionStatus from src/index.ts: first-match-wins chain
over waitTill (JS truthiness), finished, the nested result-data error
object, and stoppedAt (JS truthiness). -/
def determineExecutionStatus (execution : N8nExecution) : String :=
  if truthyStr execution.waitTill then "waiting"
  else if !execution.finished then "running"
  else if ((execution.data.bind (·.resultData)).bind (·.error)).isSome then "error"
  else if execution.finished && truthyStr execution.stoppedAt then "success"
  else "error"

/-- The `error` field computed per execution record in getExecutions:
`execution.data?.resultData?.error?.message || null` — the optional
chain followed by the JS `|| null`, which maps an empty-string message
to null. -/
def executionErrorField (execution : N8nExecution) : Option String :=
  match (execution.data.bind (·.resultData)).bind (·.error) with
  | some err => if err.message == "" then none else some err.message
  | none => none

/-- MCP protocol error codes used by src/index.ts. The spec taxonomy
maps onto them: InvalidArgument = invalidParams, UnsupportedOperation =
methodNotFound, AuthenticationError and NotFoundError = invalidRequest
(distinguished by message), UpstreamError = internalError. -/
inductive ErrorCode where
  | invalidRequest : ErrorCode
  | invalidParams : ErrorCode
  | methodNotFound : ErrorCode
  | internalError : ErrorCode
deriving DecidableEq, Repr

/-- A typed protocol error (class McpError): an error code plus a
message. -/
structure McpError where
  code : ErrorCode
  message : String
deriving DecidableEq, Repr

/-- One upstream HTTP call, identified by endpoint and the request data
this layer sends with it. -/
inductive UpstreamCall where
  | getWorkflows : UpstreamCall
  | getWorkflowById (workflowId : String) : UpstreamCall
  | getExecutionsOf (workflowId : String) (limit : Int) : UpstreamCall
  | postActivate (workflowId : String) (body : Json) : UpstreamCall
  | postTest (workflowId : String) (workflowData : N8nWorkflow) (runData : Option Json) : UpstreamCall

/-- The successful upstream responses received during one tool call:
each handler's result is a function of its arguments and these alone. -/
structure Env where
  listResp : List N8nWorkflow
  detailResp : N8nWorkflowDetail
  executionsResp : List N8nExecution
  workflowResp : N8nWorkflow
  testExecutionId : String

/-- Normalized workflow summary record built by listWorkflows: exactly
the fields id, name, active, createdAt, updatedAt, tags. -/
structure WorkflowSummary where
  id : String
  name : String
  active : Bool
  createdAt : Option String
  updatedAt : Option String
  tags : Option (List Tag)
deriving DecidableEq, Repr

/-- The per-record projection performed by listWorkflows
(src/index.ts lines 235-242). -/
def projectWorkflowSummary (workflow : N8nWorkflow) : WorkflowSummary :=
  { id := workflow.id
    name := workflow.name
    active := workflow.active
    createdAt := workflow.createdAt
    updatedAt := workflow.updatedAt
    tags := workflow.tags }

/-- Payload returned by listWorkflows. -/
structure ListWorkflowsPayload where
  success : Bool
  count : Nat
  workflows : List WorkflowSummary
deriving DecidableEq, Repr

/-- listWorkflows handler: one GET /workflows call; projects each
record to the summary shape, count := workflows.length. -/
def listWorkflows (env : Env) : List UpstreamCall × ListWorkflowsPayload :=
  let workflows := env.listResp.map projectWorkflowSummary
  ([UpstreamCall.getWorkflows],
   { success := true, count := workflows.length, workflows := workflows })

/-- Normalized workflow detail record built by getWorkflow, field order
as in the source object literal. -/
structure WorkflowDetailOut where
  id : String
  name : String
  active : Bool
  nodes : List Json
  connections : List (String × Json)
  settings : Option (List (String × Json))
  staticData : Option (List (String × Json))
  tags : Option (List Tag)
  createdAt : Option String
  updatedAt : Option String

/-- Payload returned by getWorkflow. -/
structure GetWorkflowPayload where
  success : Bool
  workflow : WorkflowDetailOut

/-- getWorkflow handler: one GET /workflows/id call; projects the
detail response. -/
def getWorkflow (env : Env) (workflowId : String) :
    List UpstreamCall × GetWorkflowPayload :=
  let workflow := env.detailResp
  ([UpstreamCall.getWorkflowById workflowId],
   { success := true
     workflow :=
      { id := workflow.id
        name := workflow.name
        active := workflow.active
        nodes := workflow.nodes
        connections := workflow.connections
        settings := workflow.settings
        staticData := workflow.staticData
        tags := workflow.tags
        createdAt := workflow.createdAt
        updatedAt := workflow.updatedAt } })

/-- Normalized execution record built by getExecutions: exactly the
fields id, workflowId, finished, mode, startedAt, stoppedAt, status,
error, in source-literal order. -/
structure ExecutionSummary where
  id : String
  workflowId : String
  finished : Bool
  mode : String
  startedAt : String
  stoppedAt : Option String
  status : String
  error : Option String
deriving DecidableEq, Repr

/-- The per-record projection performed by getExecutions
(src/index.ts lines 319-328). -/
def projectExecution (execution : N8nExecution) : ExecutionSummary :=
  { id := execution.id
    workflowId := execution.workflowId
    finished := execution.finished
    mode := execution.mode
    startedAt := execution.startedAt
    stoppedAt := execution.stoppedAt
    status := determineExecutionStatus execution
    error := executionErrorField execution }

/-- The keys of the execution record object literal in getExecutions,
in source order. -/
def executionSummaryKeys : List String :=
  ["id", "workflowId", "finished", "mode", "startedAt", "stoppedAt", "status", "error"]

/-- Payload returned by getExecutions. -/
structure GetExecutionsPayload where
  success : Bool
  workflowId : String
  count : Nat
  executions : List ExecutionSummary
deriving DecidableEq, Repr

/-- getExecutions handler: computes
`validLimit = Math.min(Math.max(1, limit || 10), 100)` (a missing limit
defaults to 10 via the parameter default; `limit || 10` also turns the
falsy 0 into 10), issues one GET /executions call with it, and maps
each execution record through the projection. -/
def getExecutions (env : Env) (workflowId : String) (limit : Option Int) :
    List UpstreamCall × GetExecutionsPayload :=
  let limitArg : Int := match limit with | none => 10 | some l => l
  let validLimit : Int := min (max 1 (if limitArg == 0 then 10 else limitArg)) 100
  let executions := env.executionsResp.map projectExecution
  ([UpstreamCall.getExecutionsOf workflowId validLimit],
   { success := true
     workflowId := workflowId
     count := executions.length
     executions := executions })

/-- Payload returned by triggerWorkflow. -/
structure TriggerPayload where
  success : Bool
  message : String
  workflowId : String
  executionId : String
  workflowActive : Bool
deriving Repr

/-- triggerWorkflow handler: POST activate (body `data || {}`), GET the
workflow, then branch on the fetched active flag — both branches issue
the identical POST test call with the fetched workflow as workflowData
and the caller data as runData. The executionId comes from the test
response, workflowActive from the fetched workflow. -/
def triggerWorkflow (env : Env) (workflowId : String) (data : Option Json) :
    List UpstreamCall × TriggerPayload :=
  let activateCall := UpstreamCall.postActivate workflowId (data.getD (Json.obj []))
  let workflowData := env.workflowResp
  let branch : UpstreamCall × String :=
    if workflowData.active then
      (UpstreamCall.postTest workflowId workflowData data, env.testExecutionId)
    else
      (UpstreamCall.postTest workflowId workflowData data, env.testExecutionId)
  ([activateCall, UpstreamCall.getWorkflowById workflowId, branch.1],
   { success := true
     message := "Workflow triggered successfully"
     workflowId := workflowId
     executionId := branch.2
     workflowActive := workflowData.active })

/-- The argument mapping of one tool call. A field is `none` when the
key is absent. -/
structure CallArgs where
  workflow_id : Option String := none
  limit : Option Int := none
  data : Option Json := none

/-- The dispatcher's guard `!args?.workflow_id`: true when the argument
mapping is absent, the key is absent, or the value is the (falsy) empty
string. -/
def workflowIdMissing (args : Option CallArgs) : Bool :=
  match args with
  | none => true
  | some a =>
    match a.workflow_id with
    | none => true
    | some s => s == ""

/-- The result of a successful handler, tagged by which tool ran. -/
inductive HandlerPayload where
  | list (p : ListWorkflowsPayload) : HandlerPayload
  | workflow (p : GetWorkflowPayload) : HandlerPayload
  | executions (p : GetExecutionsPayload) : HandlerPayload
  | trigger (p : TriggerPayload) : HandlerPayload

/-- The CallTool dispatcher (src/index.ts lines 173-219): switch on the
tool name, check `workflow_id` before any upstream call, delegate to the
handler; unknown names fail with MethodNotFound. Returns the list of
upstream calls issued together with the outcome. -/
def dispatch (env : Env) (name : String) (args : Option CallArgs) :
    List UpstreamCall × Except McpError HandlerPayload :=
  if name == "list_workflows" then
    let r := listWorkflows env
    (r.1, Except.ok (HandlerPayload.list r.2))
  else if name == "get_workflow" then
    if workflowIdMissing args then
      ([], Except.error ⟨ErrorCode.invalidParams, "workflow_id is required"⟩)
    else
      let r := getWorkflow env ((args.bind (·.workflow_id)).getD "")
      (r.1, Except.ok (HandlerPayload.workflow r.2))
  else if name == "get_executions" then
    if workflowIdMissing args then
      ([], Except.error ⟨ErrorCode.invalidParams, "workflow_id is required"⟩)
    else
      let r := getExecutions env ((args.bind (·.workflow_id)).getD "") (args.bind (·.limit))
      (r.1, Except.ok (HandlerPayload.executions r.2))
  else if name == "trigger_workflow" then
    if workflowIdMissing args then
      ([], Except.error ⟨ErrorCode.invalidParams, "workflow_id is required"⟩)
    else
      let r := triggerWorkflow env ((args.bind (·.workflow_id)).getD "") (args.bind (·.data))
      (r.1, Except.ok (HandlerPayload.trigger r.2))
  else
    ([], Except.error ⟨ErrorCode.methodNotFound, "Unknown tool: " ++ name⟩)

/-- An axios response attached to a failed request: HTTP status and the
(possibly absent) parsed body. -/
structure AxiosResponse where
  status : Nat
  data : Option Json := none

/-- A thrown JavaScript error as seen by handleAxiosError: whether
axios produced it, its message, and the attached response when one was
received (none models a network-level failure). -/
structure JsError where
  isAxiosError : Bool
  message : String
  response : Option AxiosResponse := none

/-- The message selected by handleAxiosError:
`axiosError.response?.data ? JSON.stringify(data) : axiosError.message`
— the serialized body when a truthy body was received, else the
transport error text. -/
def axiosDataMessage (error : JsError) : String :=
  match error.response.bind (·.data) with
  | some d => if d.truthy then d.stringify else error.message
  | none => error.message

/-- handleAxiosError (src/index.ts lines 430-462): 401/403 → an
InvalidRequest error with the authentication hint; 404 → an
InvalidRequest not-found error; anything else (other statuses, or no
response at all) → an InternalError carrying the context; a non-axios
error also becomes an InternalError with the context. -/
def handleAxiosError (error : JsError) (context : String) : McpError :=
  if error.isAxiosError then
    let status := error.response.map (·.status)
    let message := axiosDataMessage error
    if status = some 401 ∨ status = some 403 then
      ⟨ErrorCode.invalidRequest,
       "Authentication failed: " ++ message ++ ". Please check your N8N_API_KEY."⟩
    else if status = some 404 then
      ⟨ErrorCode.invalidRequest, "Resource not found: " ++ message⟩
    else
      ⟨ErrorCode.internalError, context ++ ": " ++ message⟩
  else
    ⟨ErrorCode.internalError, context ++ ": " ++ error.message⟩

/-- A value thrown inside a handler and reaching the outer dispatch
boundary: either a typed protocol error or anything else, carried by
its extracted message (`error instanceof Error ? error.message :
String(error)`). -/
inductive Thrown where
  | mcp (e : McpError) : Thrown
  | other (message : String) : Thrown

/-- What the outer boundary returns to the protocol layer: a handler
payload, or the generic failure payload produced by handleError with
its isError flag. -/
inductive CallToolResult where
  | payload (p : HandlerPayload) : CallToolResult
  | errorPayload (success : Bool) (error : String) (isError : Bool) : CallToolResult

/-- handleError (src/index.ts lines 464-484): wraps a message into the
generic failure payload `{success: false, error: message}` marked with
isError := true. -/
def handleError (message : String) : CallToolResult :=
  CallToolResult.errorPayload false message true

/-- The outer catch of the CallTool handler (src/index.ts lines
220-226): a thrown McpError is rethrown unchanged; any other thrown
value is converted by handleError into a returned failure payload. -/
def dispatchBoundary (outcome : Except Thrown HandlerPayload) :
    Except McpError CallToolResult :=
  match outcome with
  | Except.ok p => Except.ok (CallToolResult.payload p)
  | Except.error (Thrown.mcp e) => Except.error e
  | Except.error (Thrown.other message) => Except.ok (handleError message)

/-- Spec-side limit clamp (amended wording of spec section 4.4): the
effective limit is `min(max(1, l), 100)` where `l` is 10 when the limit
argument is absent or 0 (falsy), else the argument itself. -/
def clampedLimitSpec (limit : Option Int) : Int :=
  min (max 1 (match limit with
    | none => 10
    | some l => if l = 0 then 10 else l)) 100

/-- Spec-side status derivation (amended wording of spec section 4.4):
a pure function of the four-tuple (waitTill, finished, presence of the
nested result-data error object, stoppedAt), first match wins, where an
optional string field counts as present only when non-empty. -/
def statusSpec (waitTill : Option String) (finished : Bool)
    (hasResultError : Bool) (stoppedAt : Option String) : String :=
  if truthyStr waitTill then "waiting"
  else if finished = false then "running"
  else if hasResultError then "error"
  else if finished = true ∧ truthyStr stoppedAt then "success"
  else "error"

/-- A sample upstream workflow used to instantiate universally
quantified theorems at concrete inputs. -/
def sampleWorkflow : N8nWorkflow :=
  { id := "w1", name := "Sample workflow", active := true,
    createdAt := some "2024-01-01T00:00:00Z", updatedAt := none,
    tags := some [{ id := "t1", name := "prod" }] }

/-- A sample upstream workflow detail response. -/
def sampleDetail : N8nWorkflowDetail :=
  { id := "w1", name := "Sample workflow", active := true,
    createdAt := some "2024-01-01T00:00:00Z", updatedAt := none,
    tags := some [{ id := "t1", name := "prod" }],
    nodes := [Json.obj [("type", Json.str "start")]],
    connections := [("start", Json.arr [])],
    settings := none, staticData := none }

/-- A sample upstream execution record. -/
def sampleExecution : N8nExecution :=
  { id := "e1", finished := true, mode := "manual",
    startedAt := "2024-01-02T00:00:00Z", stoppedAt := some "2024-01-02T00:01:00Z",
    workflowId := "w1" }

/-- A sample environment of successful upstream responses. -/
def sampleEnv : Env :=
  { listResp := [sampleWorkflow], detailResp := sampleDetail,
    executionsResp := [sampleExecution], workflowResp := sampleWorkflow,
    testExecutionId := "exec-123" }

/-- C1 counterexample: at limit = 0 the handler sends 10 (the `limit
|| 10` default), not `min(max(1, 0), 100) = 1` as the claim states. -/
theorem C1_limit_zero_counterexample :
    (getExecutions sampleEnv "w1" (some 0)).1 =
      [UpstreamCall.getExecutionsOf "w1" 10] ∧
    (10 : Int) ≠ min (max 1 0) 100 := by
  exact ⟨rfl, by decide⟩

/-- C1 (amended): for every call, the limit sent upstream equals
`min(max(1, l), 100)` where `l` defaults to 10 when the limit argument
is absent or 0; in particular limit=0 sends 10, limit=500 sends 100, an
absent limit sends 10, limit=37 sends 37, and limit=-5 sends 1. -/
theorem C1_limit_clamped (env : Env) (workflowId : String) (limit : Option Int) :
    (getExecutions env workflowId limit).1 =
      [UpstreamCall.getExecutionsOf workflowId (clampedLimitSpec limit)] ∧
    clampedLimitSpec (some 0) = 10 ∧
    clampedLimitSpec (some 500) = 100 ∧
    clampedLimitSpec none = 10 ∧
    clampedLimitSpec (some 37) = 37 ∧
    clampedLimitSpec (some (-5)) = 1 := by
  refine ⟨?_, by decide, by decide, by decide, by decide, by decide⟩
  cases limit with
  | none => simp [getExecutions, clampedLimitSpec]
  | some l =>
    by_cases h : l = 0 <;> simp [getExecutions, clampedLimitSpec, h]

/-- C2 counterexample: an execution whose waitTill is present but empty
(falsy in JS) and whose finished is false gets status "running", not
"waiting" as the claim's first precedence rule states. -/
theorem C2_waitTill_empty_counterexample :
    determineExecutionStatus
      { id := "e2", finished := false, mode := "trigger",
        startedAt := "2024-01-02T00:00:00Z", workflowId := "w1",
        waitTill := some "" } = "running" ∧
    ("running" : String) ≠ "waiting" := by
  exact ⟨rfl, by decide⟩

/-- C2 (amended): the derived status is a pure function of (waitTill,
finished, presence of the nested result-data error object, stoppedAt)
with first-match-wins precedence, where the optional string fields
waitTill and stoppedAt count as present only when non-empty. -/
theorem C2_status_pure_function (e : N8nExecution) :
    determineExecutionStatus e =
      statusSpec e.waitTill e.finished
        ((e.data.bind (·.resultData)).bind (·.error)).isSome e.stoppedAt := by
  unfold determineExecutionStatus statusSpec
  cases h : e.finished <;> simp [h]

/-- C3: with every upstream call succeeding, trigger_workflow issues
exactly three upstream calls in order — activate, get-workflow, test —
the test call being identical in the active and the inactive branch,
and the returned payload takes executionId from the test response and
workflowActive from the fetched workflow's active flag. -/
theorem C3_trigger_three_calls (env : Env) (workflowId : String) (data : Option Json) :
    (triggerWorkflow env workflowId data).1 =
      [UpstreamCall.postActivate workflowId (data.getD (Json.obj [])),
       UpstreamCall.getWorkflowById workflowId,
       UpstreamCall.postTest workflowId env.workflowResp data] ∧
    (triggerWorkflow env workflowId data).2.success = true ∧
    (triggerWorkflow env workflowId data).2.executionId = env.testExecutionId ∧
    (triggerWorkflow env workflowId data).2.workflowId = workflowId ∧
    (triggerWorkflow env workflowId data).2.workflowActive = env.workflowResp.active := by
  unfold triggerWorkflow
  cases h : env.workflowResp.active <;> simp [h]

/-- C4: when the argument mapping of get_workflow, get_executions or
trigger_workflow lacks a workflow_id (absent mapping, absent key, or
empty string), the dispatcher fails with the InvalidParams error
"workflow_id is required" and issues zero upstream calls. -/
theorem C4_missing_workflow_id (env : Env) (name : String) (args : Option CallArgs)
    (hname : name = "get_workflow" ∨ name = "get_executions" ∨ name = "trigger_workflow")
    (hmiss : workflowIdMissing args = true) :
    dispatch env name args =
      ([], Except.error ⟨ErrorCode.invalidParams, "workflow_id is required"⟩) := by
  rcases hname with h | h | h <;> subst h <;> simp [dispatch, hmiss]

/-- C4 witness: get_workflow with no arguments at all fails with
InvalidParams and an empty call trace, in the sample environment. -/
theorem C4_missing_workflow_id_witness :
    dispatch sampleEnv "get_workflow" none =
      ([], Except.error ⟨ErrorCode.invalidParams, "workflow_id is required"⟩) :=
  C4_missing_workflow_id sampleEnv "get_workflow" none (Or.inl rfl) rfl

/-- C5: for any axios-reported failure, status 401 or 403 yields the
authentication error whose message carries the serialized upstream body
and the credential hint; status 404 yields the not-found error with the
body; any other status yields the internal (upstream) error with the
handler context and the body; and a network-level failure with no
response yields the internal (upstream) error with the context and the
transport error text. -/
theorem C5_error_translation (error : JsError) (context : String)
    (haxios : error.isAxiosError = true) :
    (∀ resp d, error.response = some resp → resp.data = some d → d.truthy = true →
        (resp.status = 401 ∨ resp.status = 403) →
        handleAxiosError error context =
          ⟨ErrorCode.invalidRequest,
           "Authentication failed: " ++ d.stringify ++ ". Please check your N8N_API_KEY."⟩) ∧
    (∀ resp d, error.response = some resp → resp.data = some d → d.truthy = true →
        resp.status = 404 →
        handleAxiosError error context =
          ⟨ErrorCode.invalidRequest, "Resource not found: " ++ d.stringify⟩) ∧
    (∀ resp d, error.response = some resp → resp.data = some d → d.truthy = true →
        resp.status ≠ 401 → resp.status ≠ 403 → resp.status ≠ 404 →
        handleAxiosError error context =
          ⟨ErrorCode.internalError, context ++ ": " ++ d.stringify⟩) ∧
    (error.response = none →
        handleAxiosError error context =
          ⟨ErrorCode.internalError, context ++ ": " ++ error.message⟩) := by
  refine ⟨?_, ?_, ?_, ?_⟩
  · intro resp d hresp hdata htruthy hstatus
    rcases hstatus with h | h <;>
      simp [handleAxiosError, axiosDataMessage, haxios, hresp, hdata, htruthy, h]
  · intro resp d hresp hdata htruthy h
    simp [handleAxiosError, axiosDataMessage, haxios, hresp, hdata, htruthy, h]
  · intro resp d hresp hdata htruthy h1 h3 h4
    simp [handleAxiosError, axiosDataMessage, haxios, hresp, hdata, htruthy, h1, h3, h4]
  · intro hresp
    simp [handleAxiosError, axiosDataMessage, haxios, hresp]

/-- C5 witness: the four translation cases evaluated at concrete failed
requests — 401 with a body, 404 with a body, 500 with a body, and a
timeout with no response. -/
theorem C5_error_translation_witness :
    handleAxiosError
      { isAxiosError := true, message := "req failed",
        response := some { status := 401, data := some (Json.str "denied") } } "ctx" =
      ⟨ErrorCode.invalidRequest,
       "Authentication failed: " ++ (Json.str "denied").stringify ++
         ". Please check your N8N_API_KEY."⟩ ∧
    handleAxiosError
      { isAxiosError := true, message := "req failed",
        response := some { status := 404, data := some (Json.str "gone") } } "ctx" =
      ⟨ErrorCode.invalidRequest, "Resource not found: " ++ (Json.str "gone").stringify⟩ ∧
    handleAxiosError
      { isAxiosError := true, message := "req failed",
        response := some { status := 500, data := some (Json.str "boom") } } "ctx" =
      ⟨ErrorCode.internalError, "ctx" ++ ": " ++ (Json.str "boom").stringify⟩ ∧
    handleAxiosError
      { isAxiosError := true, message := "timeout of 30000ms exceeded",
        response := none } "ctx" =
      ⟨ErrorCode.internalError, "ctx" ++ ": " ++ "timeout of 30000ms exceeded"⟩ := by
  refine ⟨?_, ?_, ?_, ?_⟩
  · exact (C5_error_translation _ "ctx" rfl).1 _ _ rfl rfl rfl (Or.inl rfl)
  · exact (C5_error_translation _ "ctx" rfl).2.1 _ _ rfl rfl rfl rfl
  · exact (C5_error_translation _ "ctx" rfl).2.2.1 _ _ rfl rfl rfl
      (by decide) (by decide) (by decide)
  · exact (C5_error_translation _ "ctx" rfl).2.2.2 rfl

/-- C6: at the outer dispatch boundary every thrown typed protocol
error — including the InvalidParams one for a missing workflow_id and
the MethodNotFound one for an unknown tool — propagates unchanged,
while any other thrown value is returned as the generic failure payload
with success false, the extracted message, and the error flag set. -/
theorem C6_boundary_catch (e : McpError) (message : String) :
    dispatchBoundary (Except.error (Thrown.mcp e)) = Except.error e ∧
    dispatchBoundary (Except.error (Thrown.other message)) =
      Except.ok (CallToolResult.errorPayload false message true) ∧
    dispatchBoundary
        (Except.error (Thrown.mcp ⟨ErrorCode.invalidParams, "workflow_id is required"⟩)) =
      Except.error ⟨ErrorCode.invalidParams, "workflow_id is required"⟩ ∧
    (∀ name, dispatchBoundary
        (Except.error (Thrown.mcp ⟨ErrorCode.methodNotFound, "Unknown tool: " ++ name⟩)) =
      Except.error ⟨ErrorCode.methodNotFound, "Unknown tool: " ++ name⟩) ∧
    (∀ p, dispatchBoundary (Except.ok p) = Except.ok (CallToolResult.payload p)) := by
  exact ⟨rfl, rfl, rfl, fun _ => rfl, fun _ => rfl⟩

/-- C7: list_workflows issues one list call and returns success true, a
count equal to the length of the returned workflows sequence, and the
upstream records in order, each projected to exactly the summary fields
id, name, active, createdAt, updatedAt, tags. -/
theorem C7_list_workflows_shape (env : Env) :
    (listWorkflows env).1 = [UpstreamCall.getWorkflows] ∧
    (listWorkflows env).2.success = true ∧
    (listWorkflows env).2.count = (listWorkflows env).2.workflows.length ∧
    (listWorkflows env).2.workflows = env.listResp.map projectWorkflowSummary ∧
    (∀ w, projectWorkflowSummary w =
      { id := w.id, name := w.name, active := w.active,
        createdAt := w.createdAt, updatedAt := w.updatedAt, tags := w.tags }) := by
  exact ⟨rfl, rfl, rfl, rfl, fun _ => rfl⟩

/-- C8: list_workflows and get_workflow are deterministic functions of
their arguments and the upstream response alone — two invocations that
receive identical upstream responses (and, for get_workflow, the same
workflow_id) produce identical normalized outputs. -/
theorem C8_handlers_deterministic (env1 env2 : Env) (wid1 wid2 : String)
    (henv : env1 = env2) (hwid : wid1 = wid2) :
    listWorkflows env1 = listWorkflows env2 ∧
    getWorkflow env1 wid1 = getWorkflow env2 wid2 := by
  subst henv
  subst hwid
  exact ⟨rfl, rfl⟩

/-- C8 witness: two repetitions against the sample environment agree. -/
theorem C8_handlers_deterministic_witness :
    listWorkflows sampleEnv = listWorkflows sampleEnv ∧
    getWorkflow sampleEnv "w1" = getWorkflow sampleEnv "w1" :=
  C8_handlers_deterministic sampleEnv sampleEnv "w1" "w1" rfl rfl

/-- C9: the error field of a normalized execution record is the nested
result-data error message exactly when that message is present and
non-empty, and null otherwise; in particular a record whose error
object exists with an empty message — once it reaches the error rule of
the status precedence — gets status "error" but error null. -/
theorem C9_error_field (e : N8nExecution) :
    (∀ m, (projectExecution e).error = some m ↔
        ∃ err, (e.data.bind (·.resultData)).bind (·.error) = some err ∧
          err.message = m ∧ m ≠ "") ∧
    (∀ err, (e.data.bind (·.resultData)).bind (·.error) = some err →
        err.message = "" → truthyStr e.waitTill = false → e.finished = true →
        (projectExecution e).status = "error" ∧ (projectExecution e).error = none) := by
  constructor
  · intro m
    cases h : (e.data.bind (·.resultData)).bind (·.error) with
    | none => simp [projectExecution, executionErrorField, h]
    | some err =>
      by_cases hmsg : err.message = "" <;>
        simp [projectExecution, executionErrorField, h, hmsg] <;>
        aesop
  · intro err h hmsg hwait hfin
    constructor
    · simp [projectExecution, determineExecutionStatus, hwait, hfin, h]
    · simp [projectExecution, executionErrorField, h, hmsg]

/-- C9 witness: a finished execution carrying an error object with an
empty message is reported with status "error" and error null. -/
theorem C9_error_field_witness :
    (projectExecution
      { id := "e3", finished := true, mode := "manual",
        startedAt := "2024-01-02T00:00:00Z", stoppedAt := some "2024-01-02T00:01:00Z",
        workflowId := "w1",
        data := some { resultData := some { error := some { message := "" } } } }).status
      = "error" ∧
    (projectExecution
      { id := "e3", finished := true, mode := "manual",
        startedAt := "2024-01-02T00:00:00Z", stoppedAt := some "2024-01-02T00:01:00Z",
        workflowId := "w1",
        data := some { resultData := some { error := some { message := "" } } } }).error
      = none :=
  (C9_error_field _).2 { message := "" } rfl rfl rfl rfl

/-- C10: the execution record object built by get_executions has
exactly the keys id, workflowId, finished, mode, startedAt, stoppedAt,
status, error; waitTill, retryOf and retrySuccessId are never among
them; the output records are exactly the projections of the upstream
records; retryOf and retrySuccessId cannot influence any output field;
and waitTill can influence only the status field. -/
theorem C10_execution_record_fields :
    executionSummaryKeys =
      ["id", "workflowId", "finished", "mode", "startedAt", "stoppedAt", "status", "error"] ∧
    ("waitTill" ∉ executionSummaryKeys ∧ "retryOf" ∉ executionSummaryKeys ∧
      "retrySuccessId" ∉ executionSummaryKeys) ∧
    (∀ env wid limit, (getExecutions env wid limit).2.executions =
        env.executionsResp.map projectExecution) ∧
    (∀ e a b, projectExecution { e with retryOf := a, retrySuccessId := b } =
        projectExecution e) ∧
    (∀ e w, projectExecution { e with waitTill := w } =
        { projectExecution e with
            status := determineExecutionStatus { e with waitTill := w } }) := by
  refine ⟨rfl, ⟨by decide, by decide, by decide⟩, fun _ _ _ => rfl, fun _ _ _ => rfl,
    fun _ _ => rfl⟩

end N8nMcp
